import Mathlib

/-!
Shallow embedding of the two build-time utility scripts of the repository:

* `src/scripts/validate-react-versions.js` — the React/ReactDOM version
  compatibility validator (`validateReactVersions`);
* `src/unnamed/part_000` (the runtime smoke-test script) — `testRuntime`,
  which serves the build output and greps the root page for error signatures.

Each script is modelled as a pure function from its external inputs (file
contents, filesystem state, HTTP outcome) to an exit code plus the trace of
diagnostic events it prints, following the source line by line.  JS string
operations are modelled on `List Char`: `String.prototype.includes` is substring
(infix) containment, and the regex `(\d+)\.(\d+)\.(\d+)` with `String.match`
is leftmost-match search (for this pattern greedy matching needs no
backtracking, since a digit run followed by a mandatory `.` is deterministic).
-/

namespace ReactAdmin

/-! ## Version-string parsing (`getVersionNumber`, validate-react-versions.js lines 30-38)

`versionString.match(/(\d+)\.(\d+)\.(\d+)/)` returns the first (leftmost)
occurrence of three dot-separated digit groups, or `null`.  `parseInt` on a
pure digit group is its decimal value. -/

/-- Decimal value of a list of digit characters (what `parseInt` returns on a
matched digit group). -/
def digitsToNat (l : List Char) : Nat :=
  l.foldl (fun n c => n * 10 + (c.toNat - 48)) 0

/-- Attempt to match the regex `(\d+)\.(\d+)\.(\d+)` anchored at the start of
`cs`.  Greedy `\d+` followed by a literal `.` is deterministic (no
backtracking can help, since a shorter digit run is followed by a digit, not
a dot), so maximal munch is exact regex semantics for this pattern. -/
def matchTripleAt (cs : List Char) : Option (Nat × Nat × Nat) :=
  let d1 := cs.takeWhile Char.isDigit
  let r1 := cs.dropWhile Char.isDigit
  if d1.isEmpty then none else
  match r1 with
  | '.' :: r2 =>
    let d2 := r2.takeWhile Char.isDigit
    let r3 := r2.dropWhile Char.isDigit
    if d2.isEmpty then none else
    match r3 with
    | '.' :: r4 =>
      let d3 := r4.takeWhile Char.isDigit
      if d3.isEmpty then none else
      some (digitsToNat d1, digitsToNat d2, digitsToNat d3)
    | _ => none
  | _ => none

/-- Leftmost match of `(\d+)\.(\d+)\.(\d+)` in a character list: try every
start position from the left (`String.prototype.match` semantics). -/
def findTriple : List Char → Option (Nat × Nat × Nat)
  | [] => none
  | c :: cs =>
    match matchTripleAt (c :: cs) with
    | some t => some t
    | none => findTriple cs

/-- The parsed `{major, minor, patch}` object of the validator. -/
structure VersionTriple where
  major : Nat
  minor : Nat
  patch : Nat
deriving DecidableEq, Repr

/-- `getVersionNumber` (validate-react-versions.js lines 30-38): first
`(\d+)\.(\d+)\.(\d+)` match in the string, or `null` (`none`). -/
def getVersionNumber (s : String) : Option VersionTriple :=
  (findTriple s.data).map fun t => ⟨t.1, t.2.1, t.2.2⟩

/-- A character list of the shape `\d+\.\d+\.\d+`: three nonempty digit
groups separated by dots. -/
def TripleShape (l : List Char) : Prop :=
  ∃ a b c : List Char,
    a ≠ [] ∧ (∀ x ∈ a, x.isDigit = true) ∧
    b ≠ [] ∧ (∀ x ∈ b, x.isDigit = true) ∧
    c ≠ [] ∧ (∀ x ∈ c, x.isDigit = true) ∧
    l = a ++ '.' :: b ++ '.' :: c

/-- The string contains a substring matching three dot-separated integer
groups (i.e. the regex `(\d+)\.(\d+)\.(\d+)` has a match somewhere). -/
def ContainsTriple (s : String) : Prop :=
  ∃ pre mid post : List Char, s.data = pre ++ mid ++ post ∧ TripleShape mid

/-! ## Model of `validateReactVersions` (validate-react-versions.js lines 12-100)

External inputs: the two declared dependency version strings from
`package.json` (absent field ⇒ `undefined`), and the state of the installed
`node_modules` metadata.  Console output is abstracted as a trace of tagged
events, one per diagnostic block the script prints. -/

/-- `s.startsWith(pre)` of JavaScript: `pre` is a prefix of `s`. -/
def strStartsWith (s pre : String) : Bool :=
  pre.data.isPrefixOf s.data

/-- State of the `node_modules/{react,react-dom}/package.json` cross-check
inputs (lines 70-93):
* `absent` — `fs.existsSync` is false for at least one of the two files, so
  the guarded block is skipped silently;
* `readError` — both files exist but reading/JSON-parsing throws, landing in
  the inner `catch (nodeModulesError)`;
* `present` — both files exist and parse, yielding the two installed
  `version` strings. -/
inductive InstalledState where
  | absent
  | readError
  | present (installedReactV installedReactDomV : String)
deriving DecidableEq, Repr

/-- Diagnostic blocks printed by the validator, in source order:
* `criticalPairing` — the `❌ CRITICAL: React 19 + ReactDOM 17 detected!`
  block (lines 50-59) naming the known incompatibility and the two remedies
  (upgrade react-dom to 19.x.x, or downgrade react to 17.x.x);
* `majorMismatchWarning` — the `⚠️  WARNING: React major version mismatch
  detected` block (lines 63-67);
* `installedPairingError` — the `❌ RUNTIME ERROR DETECTED IN INSTALLED
  PACKAGES!` block (lines 82-86);
* `installedSoftWarning` — `⚠️  Could not check installed versions in
  node_modules` (line 90);
* `validationFailed` — the outer catch's `❌ React version validation
  failed: ...` (line 96);
* `passed` — `✅ React version compatibility check passed` (line 93). -/
inductive VEvent where
  | criticalPairing
  | majorMismatchWarning
  | installedPairingError
  | installedSoftWarning
  | validationFailed
  | passed
deriving DecidableEq, Repr

/-- Observable outcome of a validator run: the process exit code (0 when the
script falls off the end, 1 on any `process.exit(1)` or caught error) and
the ordered trace of diagnostic events. -/
structure VResult where
  exitCode : Nat
  events : List VEvent
deriving DecidableEq, Repr

/-- `validateReactVersions` (lines 12-100) as a function of its inputs.
Control flow follows the source:
1. missing `dependencies.react` / `dependencies['react-dom']` throws, caught
   by the outer catch ⇒ exit 1 (lines 23-25, 95-98);
2. either version string failing `getVersionNumber` throws, same catch
   ⇒ exit 1 (lines 43-45);
3. declared majors 19/17 ⇒ CRITICAL block and `process.exit(1)` (lines 49-60);
4. otherwise differing majors ⇒ warning block, continue (lines 63-67);
5. installed cross-check (lines 70-91): skipped silently when a metadata
   file is absent; on read/parse error the inner catch logs the soft
   warning; when present, `version.startsWith('19.')` together with
   `version.startsWith('17.')` triggers the installed-packages error and
   `process.exit(1)` (lines 81-87);
6. success message, implicit exit 0 (line 93). -/
def validateReactVersions (reactVersion reactDomVersion : Option String)
    (inst : InstalledState) : VResult :=
  match reactVersion, reactDomVersion with
  | some rv, some dv =>
    match getVersionNumber rv, getVersionNumber dv with
    | some reactVer, some reactDomVer =>
      if reactVer.major = 19 ∧ reactDomVer.major = 17 then
        ⟨1, [.criticalPairing]⟩
      else
        let warns : List VEvent :=
          if reactVer.major ≠ reactDomVer.major then [.majorMismatchWarning] else []
        match inst with
        | .absent => ⟨0, warns ++ [.passed]⟩
        | .readError => ⟨0, warns ++ [.installedSoftWarning, .passed]⟩
        | .present irv idv =>
          if strStartsWith irv "19." && strStartsWith idv "17." then
            ⟨1, warns ++ [.installedPairingError]⟩
          else
            ⟨0, warns ++ [.passed]⟩
    | _, _ => ⟨1, [.validationFailed]⟩
  | _, _ => ⟨1, [.validationFailed]⟩

/-- The installed-package cross-check neither runs to a failure: it is
skipped (files absent, or read error caught by the inner catch) or it passes
(both version strings present but not the `19.` / `17.` pairing). -/
def InstalledState.skipsOrPasses : InstalledState → Prop
  | .absent => True
  | .readError => True
  | .present irv idv =>
      ¬(strStartsWith irv "19." = true ∧ strStartsWith idv "17." = true)

/-! ## Model of `testRuntime` (the runtime smoke-test script)

External inputs: whether the build directory exists, and the outcome of the
single HTTP GET probe.  `String.prototype.includes` is substring containment. -/

/-- `s.includes(sub)` of JavaScript: `sub` occurs as a contiguous substring
of `s`. -/
def strIncludes (s sub : String) : Bool :=
  decide (sub.data <:+: s.data)

/-- Outcome of the single `http.get('http://localhost:3001', ...)` probe:
a full response body, a transport error (the `req.on('error')` handler), or
the 5-second request timeout (the `req.setTimeout` handler). -/
inductive HttpOutcome where
  | response (body : String)
  | connError
  | timeout
deriving DecidableEq, Repr

/-- Observable events of a smoke-test run, in source order:
* `buildDirMissing` — `❌ Build directory not found...` (line 20);
* `spawnServe` — the `spawn('npx', ['serve', ...])` call (lines 25-28);
* `htmlStructureOk` — `✅ Basic HTML structure looks good` (line 58);
* `testPassed` — `✅ Runtime compatibility test passed` (line 90);
* `testFailed msg` — the catch block's `❌ Runtime test failed: <msg>`
  (lines 92-95), carrying the rejection message;
* `killServe` — `serve.kill()` in the finally block (line 97). -/
inductive TEvent where
  | buildDirMissing
  | spawnServe
  | htmlStructureOk
  | testPassed
  | testFailed (msg : String)
  | killServe
deriving DecidableEq, Repr

/-- Observable outcome of a smoke-test run: exit code and ordered event
trace. -/
structure TResult where
  exitCode : Nat
  events : List TEvent
deriving DecidableEq, Repr

/-- The `res.on('end')` body inspection (lines 55-72): first the root-mount
marker check (`'<div id="root">'` or `'id="root"'`), then — only when the
marker is present — the four error-signature substrings.  Returns the events
logged inside the promise plus resolve (`ok`) or reject (`error msg`). -/
def probeBody (body : String) : List TEvent × Except String Unit :=
  if strIncludes body "<div id=\"root\">" || strIncludes body "id=\"root\"" then
    ([.htmlStructureOk],
      if strIncludes body "Cannot read properties of undefined" ||
         strIncludes body "ReactCurrentDispatcher" ||
         strIncludes body "React error" ||
         strIncludes body "TypeError" then
        .error "React runtime error detected in HTML output"
      else
        .ok ())
  else
    ([], .error "React app root element not found")

/-- The whole `testPromise` (lines 49-85): body inspection on a response,
wrapped transport error, or timeout error. -/
def probe : HttpOutcome → List TEvent × Except String Unit
  | .response body => probeBody body
  | .connError => ([], .error "HTTP request failed")
  | .timeout => ([], .error "HTTP request timeout")

/-- `testRuntime` (lines 15-98) as a function of its inputs:
1. missing build directory ⇒ error and `process.exit(1)` before `spawn` is
   reached (lines 19-22);
2. otherwise spawn the serve process, wait, probe (lines 25-87);
3. on resolve: success message, then the `finally` block runs `serve.kill()`
   and the process exits 0 (lines 88-97);
4. on reject or throw: the catch block logs the failure and calls
   `process.exit(1)` (line 95).  In Node, `process.exit` terminates the
   process immediately, so the `finally` block — and with it `serve.kill()`
   — never runs on this path; the trace therefore has no `killServe`. -/
def testRuntime (buildDirExists : Bool) (http : HttpOutcome) : TResult :=
  if !buildDirExists then
    ⟨1, [.buildDirMissing]⟩
  else
    match probe http with
    | (evs, .ok _) => ⟨0, .spawnServe :: evs ++ [.testPassed, .killServe]⟩
    | (evs, .error msg) => ⟨1, .spawnServe :: evs ++ [.testFailed msg]⟩

/-! ## Lemmas about the regex model

The search `findTriple` succeeds exactly on the character lists containing a
substring of shape `\d+\.\d+\.\d+`. -/

/-- If `p` holds on all of `a` and fails on `y`, `takeWhile`/`dropWhile`
split `a ++ y :: r` exactly at the boundary. -/
theorem takeWhile_append_not (p : Char → Bool) (a : List Char) (y : Char) (r : List Char)
    (ha : ∀ x ∈ a, p x = true) (hy : p y = false) :
    (a ++ y :: r).takeWhile p = a ∧ (a ++ y :: r).dropWhile p = y :: r := by
  induction a with
  | nil => simp [List.takeWhile_cons, List.dropWhile_cons, hy]
  | cons x xs ih =>
    have hx : p x = true := ha x (by simp)
    have hih := ih (fun z hz => ha z (by simp [hz]))
    simp [List.takeWhile_cons, List.dropWhile_cons, hx, hih.1, hih.2]

/-- Soundness of the anchored matcher: a successful match at the head of
`cs` exhibits a leading substring of triple shape. -/
theorem matchTripleAt_sound {cs : List Char} {t : Nat × Nat × Nat}
    (h : matchTripleAt cs = some t) :
    ∃ mid post, cs = mid ++ post ∧ TripleShape mid := by
  simp only [matchTripleAt] at h
  split at h
  · exact absurd h (by simp)
  next hd1 =>
  split at h
  case h_2 => exact absurd h (by simp)
  next r2 heq1 =>
  split at h
  · exact absurd h (by simp)
  next hd2 =>
  split at h
  case h_2 => exact absurd h (by simp)
  next r4 heq2 =>
  split at h
  · exact absurd h (by simp)
  next hd3 =>
  refine ⟨cs.takeWhile Char.isDigit ++
      '.' :: (r2.takeWhile Char.isDigit ++ '.' :: r4.takeWhile Char.isDigit),
      r4.dropWhile Char.isDigit, ?_, ?_⟩
  · have e1 : cs = cs.takeWhile Char.isDigit ++ cs.dropWhile Char.isDigit :=
      (List.takeWhile_append_dropWhile _ _).symm
    have e2 : r2 = r2.takeWhile Char.isDigit ++ r2.dropWhile Char.isDigit :=
      (List.takeWhile_append_dropWhile _ _).symm
    have e4 : r4 = r4.takeWhile Char.isDigit ++ r4.dropWhile Char.isDigit :=
      (List.takeWhile_append_dropWhile _ _).symm
    conv_lhs => rw [e1, heq1]
    conv_lhs => rw [e2, heq2]
    conv_lhs => rw [e4]
    simp
  · refine ⟨cs.takeWhile Char.isDigit, r2.takeWhile Char.isDigit, r4.takeWhile Char.isDigit,
      ?_, ?_, ?_, ?_, ?_, ?_, by simp⟩
    · simpa [List.isEmpty_iff] using hd1
    · exact fun x hx => List.mem_takeWhile_imp hx
    · simpa [List.isEmpty_iff] using hd2
    · exact fun x hx => List.mem_takeWhile_imp hx
    · simpa [List.isEmpty_iff] using hd3
    · exact fun x hx => List.mem_takeWhile_imp hx

/-- Soundness of the search: a successful leftmost match exhibits a
substring of triple shape somewhere in `cs`. -/
theorem findTriple_sound : ∀ {cs : List Char} {t : Nat × Nat × Nat},
    findTriple cs = some t →
    ∃ pre mid post, cs = pre ++ mid ++ post ∧ TripleShape mid := by
  intro cs
  induction cs with
  | nil => intro t h; simp [findTriple] at h
  | cons c cs' ih =>
    intro t h
    rw [findTriple] at h
    cases heq : matchTripleAt (c :: cs') with
    | some t' =>
      obtain ⟨mid, post, hcs, hshape⟩ := matchTripleAt_sound heq
      exact ⟨[], mid, post, by simpa using hcs, hshape⟩
    | none =>
      rw [heq] at h
      obtain ⟨pre, mid, post, hcs, hshape⟩ := ih h
      exact ⟨c :: pre, mid, post, by simp [hcs], hshape⟩

/-- Completeness of the anchored matcher: a triple-shaped prefix matches. -/
theorem matchTripleAt_complete {mid : List Char} (h : TripleShape mid) (post : List Char) :
    (matchTripleAt (mid ++ post)).isSome = true := by
  obtain ⟨a, b, c, ha0, had, hb0, hbd, hc0, hcd, rfl⟩ := h
  have hdot : ('.' : Char).isDigit = false := by decide
  have e1 : (a ++ '.' :: b ++ '.' :: c) ++ post = a ++ '.' :: (b ++ '.' :: (c ++ post)) := by
    simp
  rw [e1]
  obtain ⟨ht1, hd1⟩ := takeWhile_append_not Char.isDigit a '.' (b ++ '.' :: (c ++ post)) had hdot
  obtain ⟨ht2, hd2⟩ := takeWhile_append_not Char.isDigit b '.' (c ++ post) hbd hdot
  obtain ⟨x, c', rfl⟩ : ∃ x c', c = x :: c' := by
    cases c with
    | nil => exact absurd rfl hc0
    | cons x c' => exact ⟨x, c', rfl⟩
  have hx : x.isDigit = true := hcd x (by simp)
  simp only [matchTripleAt, ht1, hd1, ht2, hd2]
  have hae : a.isEmpty = false := by simpa [List.isEmpty_iff] using ha0
  have hbe : b.isEmpty = false := by simpa [List.isEmpty_iff] using hb0
  simp [hae, hbe, List.takeWhile_cons, hx]

/-- The search succeeds whenever the anchored matcher succeeds at the head. -/
theorem findTriple_of_matchTripleAt : ∀ {cs : List Char},
    (matchTripleAt cs).isSome = true → (findTriple cs).isSome = true := by
  intro cs h
  cases cs with
  | nil => simp [matchTripleAt] at h
  | cons c cs' =>
    rw [findTriple]
    cases heq : matchTripleAt (c :: cs') with
    | some t => simp
    | none => rw [heq] at h; simp at h

/-- The search succeeds on `c :: cs` whenever it succeeds on `cs`. -/
theorem findTriple_cons_of_tail {c : Char} {cs : List Char}
    (h : (findTriple cs).isSome = true) : (findTriple (c :: cs)).isSome = true := by
  rw [findTriple]
  cases heq : matchTripleAt (c :: cs) with
  | some t => simp
  | none => simpa using h

/-- Completeness of the search: a triple-shaped substring anywhere makes it
succeed. -/
theorem findTriple_complete : ∀ (pre : List Char) {mid post : List Char},
    TripleShape mid → (findTriple (pre ++ mid ++ post)).isSome = true := by
  intro pre
  induction pre with
  | nil =>
    intro mid post h
    simpa using findTriple_of_matchTripleAt (matchTripleAt_complete h post)
  | cons x xs ih =>
    intro mid post h
    simpa using findTriple_cons_of_tail (by simpa using ih h)

/-- A string with no `\d+\.\d+\.\d+` substring parses to `null`. -/
theorem getVersionNumber_eq_none_of_not_containsTriple {s : String}
    (h : ¬ ContainsTriple s) : getVersionNumber s = none := by
  unfold getVersionNumber
  cases heq : findTriple s.data with
  | none => rfl
  | some t =>
    obtain ⟨pre, mid, post, hcs, hshape⟩ := findTriple_sound heq
    exact absurd ⟨pre, mid, post, hcs, hshape⟩ h

/-- Conversely, if the search fails the string has no triple substring. -/
theorem not_containsTriple_of_findTriple_none {s : String}
    (h : findTriple s.data = none) : ¬ ContainsTriple s := by
  rintro ⟨pre, mid, post, hcs, hshape⟩
  have := @findTriple_complete pre mid post hshape
  rw [← hcs, h] at this
  simp at this

/-- The longer root-marker literal contains the shorter one, so matching the
first disjunct of the marker check implies matching the second. -/
theorem strIncludes_root_of_div {body : String}
    (h : strIncludes body "<div id=\"root\">" = true) :
    strIncludes body "id=\"root\"" = true := by
  have h1 : ("<div id=\"root\">" : String).data <:+: body.data := by
    simpa [strIncludes] using h
  have h2 : ("id=\"root\"" : String).data <:+: ("<div id=\"root\">" : String).data := by
    decide
  simpa [strIncludes] using h2.trans h1

/-! ## Claim theorems -/

/-- C1: for every pair of declared version strings whose parsed major
versions are react = 19 and react-dom = 17 — whatever the minor and patch
components and whatever the installed-package state — `validateReactVersions`
prints exactly the CRITICAL incompatibility block (the known incompatibility
and the two remedies) and exits with code 1. -/
theorem validateReactVersions_critical_19_17
    (rv dv : String) (rVer dVer : VersionTriple) (inst : InstalledState)
    (hr : getVersionNumber rv = some rVer) (hd : getVersionNumber dv = some dVer)
    (hr19 : rVer.major = 19) (hd17 : dVer.major = 17) :
    validateReactVersions (some rv) (some dv) inst = ⟨1, [VEvent.criticalPairing]⟩ := by
  simp [validateReactVersions, hr, hd, hr19, hd17]

/-- Witness for C1 at react `19.1.3`, react-dom `17.0.2`. -/
theorem validateReactVersions_critical_19_17_witness :
    validateReactVersions (some "19.1.3") (some "17.0.2") InstalledState.absent
      = ⟨1, [VEvent.criticalPairing]⟩ :=
  validateReactVersions_critical_19_17 "19.1.3" "17.0.2" ⟨19, 1, 3⟩ ⟨17, 0, 2⟩
    InstalledState.absent (by decide) (by decide) rfl rfl

/-- C5: for every pair of declared version strings that both parse and have
equal major versions, with the installed-package cross-check skipped or
passing, `validateReactVersions` exits with code 0 and emits no warning (no
major-version-mismatch warning, and a fortiori no CRITICAL block). -/
theorem validateReactVersions_equal_majors
    (rv dv : String) (rVer dVer : VersionTriple) (inst : InstalledState)
    (hr : getVersionNumber rv = some rVer) (hd : getVersionNumber dv = some dVer)
    (heq : rVer.major = dVer.major) (hinst : inst.skipsOrPasses) :
    (validateReactVersions (some rv) (some dv) inst).exitCode = 0 ∧
    VEvent.majorMismatchWarning ∉ (validateReactVersions (some rv) (some dv) inst).events ∧
    VEvent.criticalPairing ∉ (validateReactVersions (some rv) (some dv) inst).events := by
  have hnc : ¬(rVer.major = 19 ∧ dVer.major = 17) := by omega
  have hne : ¬(rVer.major ≠ dVer.major) := by omega
  cases inst with
  | absent => simp [validateReactVersions, hr, hd, hnc, hne]
  | readError => simp [validateReactVersions, hr, hd, hnc, hne]
  | present irv idv =>
    have hsb : (strStartsWith irv "19." && strStartsWith idv "17.") = false := by
      cases h1 : strStartsWith irv "19." <;> cases h2 : strStartsWith idv "17." <;>
        simp_all [InstalledState.skipsOrPasses]
    simp [validateReactVersions, hr, hd, hnc, hne, hsb]

/-- Witness for C5 at react `18.2.0`, react-dom `18.2.0`, metadata absent. -/
theorem validateReactVersions_equal_majors_witness :
    (validateReactVersions (some "18.2.0") (some "18.2.0") InstalledState.absent).exitCode = 0 ∧
    VEvent.majorMismatchWarning ∉
      (validateReactVersions (some "18.2.0") (some "18.2.0") InstalledState.absent).events ∧
    VEvent.criticalPairing ∉
      (validateReactVersions (some "18.2.0") (some "18.2.0") InstalledState.absent).events :=
  validateReactVersions_equal_majors "18.2.0" "18.2.0" ⟨18, 2, 0⟩ ⟨18, 2, 0⟩
    InstalledState.absent (by decide) (by decide) rfl trivial

/-- C6: for every pair of declared version strings that both parse, whose
majors differ but are not the (19, 17) pairing, and with the
installed-package cross-check skipped or passing, `validateReactVersions`
emits the major-version-mismatch warning and still exits with code 0. -/
theorem validateReactVersions_mismatch_warning
    (rv dv : String) (rVer dVer : VersionTriple) (inst : InstalledState)
    (hr : getVersionNumber rv = some rVer) (hd : getVersionNumber dv = some dVer)
    (hne : rVer.major ≠ dVer.major) (hnc : ¬(rVer.major = 19 ∧ dVer.major = 17))
    (hinst : inst.skipsOrPasses) :
    (validateReactVersions (some rv) (some dv) inst).exitCode = 0 ∧
    VEvent.majorMismatchWarning ∈ (validateReactVersions (some rv) (some dv) inst).events := by
  cases inst with
  | absent => simp [validateReactVersions, hr, hd, hnc, hne]
  | readError => simp [validateReactVersions, hr, hd, hnc, hne]
  | present irv idv =>
    have hsb : (strStartsWith irv "19." && strStartsWith idv "17.") = false := by
      cases h1 : strStartsWith irv "19." <;> cases h2 : strStartsWith idv "17." <;>
        simp_all [InstalledState.skipsOrPasses]
    simp [validateReactVersions, hr, hd, hnc, hne, hsb]

/-- Witness for C6 at react `18.2.0`, react-dom `17.0.2`, metadata absent. -/
theorem validateReactVersions_mismatch_warning_witness :
    (validateReactVersions (some "18.2.0") (some "17.0.2") InstalledState.absent).exitCode = 0 ∧
    VEvent.majorMismatchWarning ∈
      (validateReactVersions (some "18.2.0") (some "17.0.2") InstalledState.absent).events :=
  validateReactVersions_mismatch_warning "18.2.0" "17.0.2" ⟨18, 2, 0⟩ ⟨17, 0, 2⟩
    InstalledState.absent (by decide) (by decide) (by decide) (by decide) trivial

/-- C7: whenever at least one of the two declared version strings contains no
substring matching three dot-separated integer groups, `validateReactVersions`
takes its caught-error path — it prints the validation-failed diagnostic and
exits with code 1 — and does nothing else (no uncaught termination, modelled
by the total function returning exactly this trace). -/
theorem validateReactVersions_unparsable
    (rv dv : String) (inst : InstalledState)
    (h : ¬ ContainsTriple rv ∨ ¬ ContainsTriple dv) :
    validateReactVersions (some rv) (some dv) inst = ⟨1, [VEvent.validationFailed]⟩ := by
  cases h with
  | inl h =>
    have hn := getVersionNumber_eq_none_of_not_containsTriple h
    simp [validateReactVersions, hn]
  | inr h =>
    have hn := getVersionNumber_eq_none_of_not_containsTriple h
    cases hrv : getVersionNumber rv <;> simp [validateReactVersions, hn, hrv]

/-- Witness for C7 at react `^1.2` (no numeric triple), react-dom `17.0.2`. -/
theorem validateReactVersions_unparsable_witness :
    validateReactVersions (some "^1.2") (some "17.0.2") InstalledState.absent
      = ⟨1, [VEvent.validationFailed]⟩ :=
  validateReactVersions_unparsable "^1.2" "17.0.2" InstalledState.absent
    (Or.inl (not_containsTriple_of_findTriple_none (by decide)))

/-- C2: evaluation at a failing probe (connection error) showing the bug:
the run exits 1 through the catch block, and because `process.exit(1)` in the
catch terminates the process before the `finally` block can run,
`serve.kill()` is never executed — the spawned server is NOT terminated on
this exit path, contrary to the guaranteed-cleanup claim. -/
theorem testRuntime_kill_skipped_on_failure :
    (testRuntime true HttpOutcome.connError).exitCode = 1 ∧
    TEvent.spawnServe ∈ (testRuntime true HttpOutcome.connError).events ∧
    TEvent.killServe ∉ (testRuntime true HttpOutcome.connError).events := by
  decide

/-- C3 counterexample: at a served body containing both the root marker and
`TypeError`, the run does exit 1 with the runtime-error-detected message, but
the spawned server is NOT terminated (`serve.kill()` is unreachable after
`process.exit(1)` in the catch block), refuting the claim's final conjunct. -/
theorem testRuntime_typeError_counterexample :
    (testRuntime true
        (HttpOutcome.response "<div id=\"root\"></div>TypeError: x is undefined")).exitCode = 1 ∧
    TEvent.testFailed "React runtime error detected in HTML output" ∈
      (testRuntime true
        (HttpOutcome.response "<div id=\"root\"></div>TypeError: x is undefined")).events ∧
    TEvent.killServe ∉
      (testRuntime true
        (HttpOutcome.response "<div id=\"root\"></div>TypeError: x is undefined")).events := by
  decide

/-- C3 (amended): for every served response body that contains the root
marker `id="root"` and the literal substring `TypeError`, `testRuntime` exits
with code 1 and prints the runtime-error-detected message; the spawned server
is, however, not terminated on this path, since `process.exit(1)` in the
catch block prevents the `finally` from running `serve.kill()`. -/
theorem testRuntime_typeError_detected (body : String)
    (hroot : strIncludes body "id=\"root\"" = true)
    (hte : strIncludes body "TypeError" = true) :
    (testRuntime true (HttpOutcome.response body)).exitCode = 1 ∧
    TEvent.testFailed "React runtime error detected in HTML output" ∈
      (testRuntime true (HttpOutcome.response body)).events ∧
    TEvent.killServe ∉ (testRuntime true (HttpOutcome.response body)).events := by
  simp [testRuntime, probe, probeBody, hroot, hte]

/-- Witness for the amended C3 at body `<div id="root"></div>TypeError`. -/
theorem testRuntime_typeError_detected_witness :
    (testRuntime true (HttpOutcome.response "<div id=\"root\"></div>TypeError")).exitCode = 1 ∧
    TEvent.testFailed "React runtime error detected in HTML output" ∈
      (testRuntime true (HttpOutcome.response "<div id=\"root\"></div>TypeError")).events ∧
    TEvent.killServe ∉
      (testRuntime true (HttpOutcome.response "<div id=\"root\"></div>TypeError")).events :=
  testRuntime_typeError_detected "<div id=\"root\"></div>TypeError" (by decide) (by decide)

/-- C4: whatever the probe would have returned, when the build output
directory does not exist `testRuntime` prints the build-directory error and
exits 1, and the `spawn` call is never reached. -/
theorem testRuntime_no_build_dir (http : HttpOutcome) :
    (testRuntime false http).exitCode = 1 ∧
    TEvent.buildDirMissing ∈ (testRuntime false http).events ∧
    TEvent.spawnServe ∉ (testRuntime false http).events := by
  simp [testRuntime]

/-- C8 counterexample: with declared versions `18.2.0`/`18.2.0` and installed
version strings `v19.0.0` (react) and `17.0.2` (react-dom), the installed
strings parse to major versions 19 and 17 respectively, yet the
installed-package check does not fail: the script exits 0 with only the pass
message.  The code compares with `startsWith('19.')` / `startsWith('17.')`,
which is not the majors check — `"v19.0.0"` does not start with `"19."`. -/
theorem installed_check_majors_counterexample :
    (getVersionNumber "v19.0.0").map VersionTriple.major = some 19 ∧
    (getVersionNumber "17.0.2").map VersionTriple.major = some 17 ∧
    validateReactVersions (some "18.2.0") (some "18.2.0")
      (InstalledState.present "v19.0.0" "17.0.2") = ⟨0, [VEvent.passed]⟩ := by
  decide

/-- C8 (amended): when both installed metadata files are present and
readable and the declared versions themselves pass (both parse and are not
the 19/17 pairing), the installed-package check fails — exit 1 with the
distinct installed-packages message — if and only if the installed react
version string starts with `19.` and the installed react-dom version string
starts with `17.`.  This coincides with the majors check only on version
strings that begin with their numeric triple (plain semver). -/
theorem installed_check_startsWith
    (rv dv irv idv : String) (rVer dVer : VersionTriple)
    (hr : getVersionNumber rv = some rVer) (hd : getVersionNumber dv = some dVer)
    (hnc : ¬(rVer.major = 19 ∧ dVer.major = 17)) :
    ((validateReactVersions (some rv) (some dv) (InstalledState.present irv idv)).exitCode = 1 ∧
      VEvent.installedPairingError ∈
        (validateReactVersions (some rv) (some dv) (InstalledState.present irv idv)).events)
    ↔ (strStartsWith irv "19." = true ∧ strStartsWith idv "17." = true) := by
  cases h1 : strStartsWith irv "19." <;> cases h2 : strStartsWith idv "17." <;>
    simp [validateReactVersions, hr, hd, hnc, h1, h2]

/-- Witness for the amended C8 at installed versions `19.2.0` / `17.0.2`. -/
theorem installed_check_startsWith_witness :
    ((validateReactVersions (some "18.2.0") (some "18.2.0")
        (InstalledState.present "19.2.0" "17.0.2")).exitCode = 1 ∧
      VEvent.installedPairingError ∈
        (validateReactVersions (some "18.2.0") (some "18.2.0")
          (InstalledState.present "19.2.0" "17.0.2")).events)
    ↔ (strStartsWith "19.2.0" "19." = true ∧ strStartsWith "17.0.2" "17." = true) :=
  installed_check_startsWith "18.2.0" "18.2.0" "19.2.0" "17.0.2" ⟨18, 2, 0⟩ ⟨18, 2, 0⟩
    (by decide) (by decide) (by decide)

/-- C9 counterexample: when the installed metadata files are simply absent,
no soft warning is logged — the guarded block is skipped silently (the inner
catch, which prints the soft warning, is only reached when existing files
fail to read or parse).  The claim's "files absent ⇒ logs a soft warning" is
therefore false; the exit code is still the unchanged 0. -/
theorem installed_absent_counterexample :
    (validateReactVersions (some "18.2.0") (some "18.2.0")
        InstalledState.absent).exitCode = 0 ∧
    VEvent.installedSoftWarning ∉
      (validateReactVersions (some "18.2.0") (some "18.2.0")
        InstalledState.absent).events := by
  decide

/-- C9 (amended): when the declared checks pass (both strings parse, majors
not the 19/17 pairing), a read or parse failure on existing installed
metadata files logs the soft warning, skips the cross-check and leaves the
exit code at 0, while absent metadata files skip the cross-check silently
(no soft warning) and likewise leave the exit code at 0. -/
theorem installed_read_failure_soft
    (rv dv : String) (rVer dVer : VersionTriple)
    (hr : getVersionNumber rv = some rVer) (hd : getVersionNumber dv = some dVer)
    (hnc : ¬(rVer.major = 19 ∧ dVer.major = 17)) :
    (validateReactVersions (some rv) (some dv) InstalledState.readError).exitCode = 0 ∧
    VEvent.installedSoftWarning ∈
      (validateReactVersions (some rv) (some dv) InstalledState.readError).events ∧
    VEvent.passed ∈
      (validateReactVersions (some rv) (some dv) InstalledState.readError).events ∧
    (validateReactVersions (some rv) (some dv) InstalledState.absent).exitCode = 0 ∧
    VEvent.installedSoftWarning ∉
      (validateReactVersions (some rv) (some dv) InstalledState.absent).events := by
  by_cases hm : rVer.major = dVer.major
  · have hne : ¬(rVer.major ≠ dVer.major) := by omega
    simp [validateReactVersions, hr, hd, hnc, hne]
  · simp [validateReactVersions, hr, hd, hnc, hm]

/-- Witness for the amended C9 at react `18.2.0`, react-dom `18.2.0`. -/
theorem installed_read_failure_soft_witness :
    (validateReactVersions (some "18.2.0") (some "18.2.0")
        InstalledState.readError).exitCode = 0 ∧
    VEvent.installedSoftWarning ∈
      (validateReactVersions (some "18.2.0") (some "18.2.0")
        InstalledState.readError).events ∧
    VEvent.passed ∈
      (validateReactVersions (some "18.2.0") (some "18.2.0")
        InstalledState.readError).events ∧
    (validateReactVersions (some "18.2.0") (some "18.2.0")
        InstalledState.absent).exitCode = 0 ∧
    VEvent.installedSoftWarning ∉
      (validateReactVersions (some "18.2.0") (some "18.2.0")
        InstalledState.absent).events :=
  installed_read_failure_soft "18.2.0" "18.2.0" ⟨18, 2, 0⟩ ⟨18, 2, 0⟩
    (by decide) (by decide) (by decide)

/-- C10: for every response body that does not contain `id="root"` — whether
or not it contains error-signature substrings — `testRuntime` spawns the
server, rejects with the root-element-not-found message and exits 1; the
trace is exactly the spawn followed by that failure, so the error-signature
branch (and its message) is never reached. -/
theorem testRuntime_no_root_marker (body : String)
    (h : strIncludes body "id=\"root\"" = false) :
    testRuntime true (HttpOutcome.response body)
      = ⟨1, [TEvent.spawnServe, TEvent.testFailed "React app root element not found"]⟩ := by
  have hdiv : strIncludes body "<div id=\"root\">" = false := by
    cases hq : strIncludes body "<div id=\"root\">"
    · rfl
    · exact absurd (strIncludes_root_of_div hq) (by simp [h])
  simp [testRuntime, probe, probeBody, h, hdiv]

/-- Witness for C10 at body `TypeError` — an error-signature substring but no
root marker: the failure is root-element-not-found, not runtime-error. -/
theorem testRuntime_no_root_marker_witness :
    testRuntime true (HttpOutcome.response "TypeError")
      = ⟨1, [TEvent.spawnServe, TEvent.testFailed "React app root element not found"]⟩ :=
  testRuntime_no_root_marker "TypeError" (by decide)

end ReactAdmin
